import Mathlib

/-!
Verification of the miami MIDI chunk classifier and channel-event codec.

The definitions below are a shallow embedding of src/chunk.rs and
src/chunk/track/event.rs. Rust byte values (u8) and words (u16) are modelled
as Nat; every arithmetic operation used by the source (and, or, shifts) can
not overflow the source widths on the inputs involved, so no explicit
modular reduction is required. Fallible operations return Except; a Rust
panic or an unspecified short read of the byte source is modelled as none.
-/

namespace Miami

/-- Metadata for a note: key and velocity (struct NoteMeta, src/chunk/track/event.rs). -/
structure NoteMeta where
  key : Nat
  velocity : Nat
deriving DecidableEq

/-- Metadata for changing a controller (struct ControlChange, src/chunk/track/event.rs). -/
structure ControlChange where
  controller_number : Nat
  new_value : Nat
deriving DecidableEq

/-- A MIDI channel-voice message (enum MidiEvent, src/chunk/track/event.rs). The first
argument of every variant is the channel. -/
inductive MidiEvent where
  | NoteOff (channel : Nat) (meta : NoteMeta)
  | NoteOn (channel : Nat) (meta : NoteMeta)
  | PolyphonicKeyPressure (channel : Nat) (meta : NoteMeta)
  | ControlChange (channel : Nat) (data : Miami.ControlChange)
  | ProgramChange (channel : Nat) (program : Nat)
  | ChannelPressure (channel : Nat) (pressure : Nat)
  | PitchWheelChange (channel : Nat) (value : Nat)
deriving DecidableEq

/-- The channel carried by a MidiEvent (field 0 of every Rust variant). -/
def MidiEvent.channel : MidiEvent → Nat
  | .NoteOff ch _ => ch
  | .NoteOn ch _ => ch
  | .PolyphonicKeyPressure ch _ => ch
  | .ControlChange ch _ => ch
  | .ProgramChange ch _ => ch
  | .ChannelPressure ch _ => ch
  | .PitchWheelChange ch _ => ch

/-- MidiEvent::get_status_channel_combo (src/chunk/track/event.rs): ors the status mask of
the variant with its channel into the status byte. -/
def MidiEvent.get_status_channel_combo : MidiEvent → Nat
  | .NoteOff ch _ => 0b10000000 ||| ch
  | .NoteOn ch _ => 0b10010000 ||| ch
  | .PolyphonicKeyPressure ch _ => 0b10100000 ||| ch
  | .ControlChange ch _ => 0b10110000 ||| ch
  | .ProgramChange ch _ => 0b11000000 ||| ch
  | .ChannelPressure ch _ => 0b11010000 ||| ch
  | .PitchWheelChange ch _ => 0b11100000 ||| ch

/-- MidiWriteable::to_midi_bytes for NoteMeta (src/chunk/track/event.rs). -/
def NoteMeta.to_midi_bytes (m : NoteMeta) : List Nat := [m.key, m.velocity]

/-- MidiWriteable::to_midi_bytes for ControlChange (src/chunk/track/event.rs). -/
def ControlChange.to_midi_bytes (c : ControlChange) : List Nat :=
  [c.controller_number, c.new_value]

/-- Modelled from the spec: the MidiWriteable impl for u8 lives in src/writer.rs, which is
not among the given sources. A single-byte payload field is emitted as that one byte
(spec 4.2: encoding emits exactly the fixed number of payload bytes, in order). -/
def u8_to_midi_bytes (b : Nat) : List Nat := [b]

/-- Modelled from the spec: the MidiWriteable impl for u16 lives in src/writer.rs, which is
not among the given sources. Spec 4.2 requires the 14-bit pitch-wheel value split into two
7-bit bytes, high bit of each byte zero, with the first emitted byte carrying the high seven
bits so that the decode formula of the spec table (byte0 contributing the high limb)
restores the value. -/
def u16_to_midi_bytes (v : Nat) : List Nat := [(v >>> 7) &&& 0x7F, v &&& 0x7F]

/-- MidiWriteable::to_midi_bytes for MidiEvent (src/chunk/track/event.rs): the status byte
followed by the payload bytes of the variant. -/
def MidiEvent.to_midi_bytes (e : MidiEvent) : List Nat :=
  e.get_status_channel_combo ::
    (match e with
      | .NoteOff _ m => m.to_midi_bytes
      | .NoteOn _ m => m.to_midi_bytes
      | .PolyphonicKeyPressure _ m => m.to_midi_bytes
      | .ControlChange _ c => c.to_midi_bytes
      | .ProgramChange _ v => u8_to_midi_bytes v
      | .ChannelPressure _ v => u8_to_midi_bytes v
      | .PitchWheelChange _ v => u16_to_midi_bytes v)

/-- Modelled from the spec: Yieldable::get (src/reader.rs, not among the given sources)
pulls the next n bytes from the byte source; fewer than n bytes remaining is the short-read
condition the spec delegates to the external byte source, modelled as none. -/
def yieldGet (n : Nat) (bs : List Nat) : Option (List Nat × List Nat) :=
  if n ≤ bs.length then some (bs.take n, bs.drop n) else none

/-- TryFrom of IteratorWrapper for MidiEvent (src/chunk/track/event.rs): read one status
byte, split it into channel (low nibble) and status (high nibble), then dispatch on the
status nibble exactly as the Rust match does; any nibble without an arm falls to
Err(UnsupportedStatusCode(status)), carried here as the Nat payload of Except.error. The
result is paired with the bytes left unconsumed in the source; none models the unspecified
short-read condition (the source panics there). The pitch-wheel arm folds over the two read
bytes in reverse with the literal mask 0x7 of the source. -/
def MidiEvent.try_from (bytes : List Nat) : Option (Except Nat MidiEvent × List Nat) :=
  match bytes with
  | [] => none
  | s :: rest =>
    let channel := s &&& 0x0F
    let status := s >>> 4
    if status = 0b1000 then
      match yieldGet 2 rest with
      | some (reads, rem) =>
          some (.ok (.NoteOff channel ⟨reads.getD 0 0, reads.getD 1 0⟩), rem)
      | none => none
    else if status = 0b1001 then
      match yieldGet 2 rest with
      | some (reads, rem) =>
          some (.ok (.NoteOn channel ⟨reads.getD 0 0, reads.getD 1 0⟩), rem)
      | none => none
    else if status = 0b1011 then
      match yieldGet 2 rest with
      | some (reads, rem) =>
          some (.ok (.ControlChange channel ⟨reads.getD 0 0, reads.getD 1 0⟩), rem)
      | none => none
    else if status = 0b1100 then
      match yieldGet 1 rest with
      | some (reads, rem) => some (.ok (.ProgramChange channel (reads.getD 0 0)), rem)
      | none => none
    else if status = 0b1101 then
      match yieldGet 1 rest with
      | some (reads, rem) => some (.ok (.ChannelPressure channel (reads.getD 0 0)), rem)
      | none => none
    else if status = 0b1110 then
      match yieldGet 2 rest with
      | some (reads, rem) =>
          some (.ok (.PitchWheelChange channel
            (reads.reverse.foldl (fun result byte => (result <<< 7) ||| (byte &&& 0x7)) 0)),
            rem)
      | none => none
    else
      some (.error status, rest)

/-- Modelled from the spec: the Chunk struct of the crate root is not among the given
sources. A raw chunk carries a 4-byte type tag and a declared u32 length; chunk.len()
returns that declared length field. -/
structure Chunk where
  chunk_type : List Nat
  length : Nat

/-- Modelled from the spec: chunk_types.rs is not among the given sources; the header tag
is the four ASCII bytes of MThd. -/
def HEADER_CHUNK : List Nat := [0x4D, 0x54, 0x68, 0x64]

/-- Modelled from the spec: chunk_types.rs is not among the given sources; the track data
tag is the four ASCII bytes of MTrk. -/
def TRACK_DATA_CHUNK : List Nat := [0x4D, 0x54, 0x72, 0x6B]

/-- Header chunk fields (struct HeaderChunk, src/chunk/header.rs, not among the given
sources; field list fixed by spec section 3 and property 8.5). -/
structure HeaderChunk where
  format : Nat
  ntrk : Nat
  division : Nat
deriving DecidableEq

/-- Error marker of header parsing (struct InvalidFormat, src/chunk/header.rs). -/
inductive InvalidVal where
  | InvalidFormat

/-- Modelled from the spec: HeaderChunk::try_from over (format, ntrk, division)
(src/chunk/header.rs, not among the given sources). Semantic range validation of the three
fields is declared out of scope by spec section 1; property 8.5 fixes that format 1, ntrk 2,
division 96 is accepted verbatim. The model stores the three fields and accepts. -/
def HeaderChunk.try_from (format ntrk division : Nat) : Except InvalidVal HeaderChunk :=
  .ok ⟨format, ntrk, division⟩

/-- Modelled from the spec: TrackChunk (src/chunk/track.rs, not among the given sources) is
a fully parsed track; the chunk classifier only delegates to its parser and never inspects
the result, so the payload here is a list of delta-time and event pairs. -/
structure TrackChunk where
  events : List (Nat × MidiEvent)

/-- Modelled from the spec: track parse errors (src/chunk/track.rs, not among the given
sources); spec section 7 requires distinguishing running out of bytes from a bad status
code. -/
inductive TrackError where
  | outOfBytes
  | badStatus (code : Nat)

/-- Error enum ChunkParseError (src/chunk.rs). The Rust InvalidFormat variant wraps the
unit struct InvalidFormat; that unit payload is elided. -/
inductive ChunkParseError where
  | InvalidFormat
  | UnknownType
  | Todo (msg : String)
  | TrackParseError (e : TrackError)

/-- Parsed chunk (enum ParsedChunk, src/chunk.rs). -/
inductive ParsedChunk where
  | Header (h : HeaderChunk)
  | Track (t : TrackChunk)

/-- u16::from_be_bytes over [hi, lo]. -/
def u16_from_be_bytes (hi lo : Nat) : Nat := (hi <<< 8) ||| lo

/-- TryFrom of (Chunk, Vec u8) for ParsedChunk (src/chunk.rs), parameterized over the
delegated external track parser TrackChunk::try_from (src/chunk/track.rs, not among the
given sources). When the tag is the header tag and the declared length is 6, the source
indexes data[0] through data[5] unconditionally; a data vector shorter than 6 makes that
indexing panic, modelled as none. -/
def ParsedChunk.try_from (trackParse : List Nat → Except TrackError TrackChunk)
    (chunk : Chunk) (data : List Nat) : Option (Except ChunkParseError ParsedChunk) :=
  if chunk.chunk_type = HEADER_CHUNK then
    if chunk.length = 6 then
      if 6 ≤ data.length then
        match HeaderChunk.try_from
            (u16_from_be_bytes (data.getD 0 0) (data.getD 1 0))
            (u16_from_be_bytes (data.getD 2 0) (data.getD 3 0))
            (u16_from_be_bytes (data.getD 4 0) (data.getD 5 0)) with
        | .ok parsed => some (.ok (.Header parsed))
        | .error _ => some (.error .InvalidFormat)
      else none
    else some (.error .InvalidFormat)
  else if chunk.chunk_type = TRACK_DATA_CHUNK then
    match trackParse data with
    | .ok parsed => some (.ok (.Track parsed))
    | .error e => some (.error (.TrackParseError e))
  else some (.error .UnknownType)

/-- A trivial stand-in track parser used to instantiate universally quantified theorems at
concrete inputs. -/
def trackParseTrivial : List Nat → Except TrackError TrackChunk := fun _ => .ok ⟨[]⟩

/-- C1: counterexample to the round-trip claim. Encoding the constructible event
PolyphonicKeyPressure(channel 0, key 1, velocity 2) yields the bytes [0xA0, 1, 2], but
decoding those bytes returns Err(UnsupportedStatusCode(0xA)) instead of the original event,
because the decoder match has no arm for the status nibble 0b1010. -/
theorem c1_roundtrip_counterexample :
    (MidiEvent.PolyphonicKeyPressure 0 ⟨1, 2⟩).to_midi_bytes = [0xA0, 1, 2]
    ∧ MidiEvent.try_from [0xA0, 1, 2] = some (.error 0xA, [1, 2])
    ∧ (Except.error 0xA : Except Nat MidiEvent) ≠
        .ok (MidiEvent.PolyphonicKeyPressure 0 ⟨1, 2⟩) :=
  ⟨rfl, rfl, by simp⟩

/-- C1 (amended): the round trip decode(encode(e)) = e holds for the NoteOff, NoteOn,
ControlChange, ProgramChange and ChannelPressure variants whenever the channel is at most
15, with the decoder consuming exactly the encoded bytes. -/
theorem c1_roundtrip_amended (ch k v : Nat) (h : ch ≤ 15) :
    MidiEvent.try_from ((MidiEvent.NoteOff ch ⟨k, v⟩).to_midi_bytes) =
      some (.ok (.NoteOff ch ⟨k, v⟩), [])
    ∧ MidiEvent.try_from ((MidiEvent.NoteOn ch ⟨k, v⟩).to_midi_bytes) =
      some (.ok (.NoteOn ch ⟨k, v⟩), [])
    ∧ MidiEvent.try_from ((MidiEvent.ControlChange ch ⟨k, v⟩).to_midi_bytes) =
      some (.ok (.ControlChange ch ⟨k, v⟩), [])
    ∧ MidiEvent.try_from ((MidiEvent.ProgramChange ch k).to_midi_bytes) =
      some (.ok (.ProgramChange ch k), [])
    ∧ MidiEvent.try_from ((MidiEvent.ChannelPressure ch k).to_midi_bytes) =
      some (.ok (.ChannelPressure ch k), []) := by
  interval_cases ch <;>
    refine ⟨?_, ?_, ?_, ?_, ?_⟩ <;>
    simp [MidiEvent.to_midi_bytes, MidiEvent.get_status_channel_combo,
      NoteMeta.to_midi_bytes, ControlChange.to_midi_bytes, u8_to_midi_bytes,
      MidiEvent.try_from, yieldGet] <;>
    decide

/-- C1 witness: the amended round trip evaluated at channel 5, key 7, velocity 8. -/
theorem c1_roundtrip_witness :
    MidiEvent.try_from ((MidiEvent.NoteOff 5 ⟨7, 8⟩).to_midi_bytes) =
      some (.ok (.NoteOff 5 ⟨7, 8⟩), [])
    ∧ MidiEvent.try_from ((MidiEvent.NoteOn 5 ⟨7, 8⟩).to_midi_bytes) =
      some (.ok (.NoteOn 5 ⟨7, 8⟩), [])
    ∧ MidiEvent.try_from ((MidiEvent.ControlChange 5 ⟨7, 8⟩).to_midi_bytes) =
      some (.ok (.ControlChange 5 ⟨7, 8⟩), [])
    ∧ MidiEvent.try_from ((MidiEvent.ProgramChange 5 7).to_midi_bytes) =
      some (.ok (.ProgramChange 5 7), [])
    ∧ MidiEvent.try_from ((MidiEvent.ChannelPressure 5 7).to_midi_bytes) =
      some (.ok (.ChannelPressure 5 7), []) :=
  c1_roundtrip_amended 5 7 8 (by decide)

/-- C2: the status nibble 0xA is one of the seven recognized values of the claim, yet the
decoder rejects it with UnsupportedStatusCode(0xA) because its match has no 0b1010 arm
(first conjunct, status byte 0xA5). For a nibble genuinely outside the set the error does
carry the nibble as claimed (second conjunct, status byte 0x25, nibble 0b0010). -/
theorem c2_poly_nibble_rejected :
    MidiEvent.try_from [0xA5, 1, 2] = some (.error 0xA, [1, 2])
    ∧ MidiEvent.try_from [0x25, 1, 2] = some (.error 0x2, [1, 2]) :=
  ⟨rfl, rfl⟩

/-- C3: pitch-wheel boundary values. Encoding values 0 and 0x3FFF produces the claimed
payload bytes and decoding [0x00, 0x00] yields 0, but decoding the payload [0x7F, 0x7F]
yields 0x387, not 0x3FFF, because the decoder masks each byte with 0x7 instead of 0x7F. -/
theorem c3_pitch_boundary_eval :
    u16_to_midi_bytes 0 = [0x00, 0x00]
    ∧ u16_to_midi_bytes 0x3FFF = [0x7F, 0x7F]
    ∧ MidiEvent.try_from [0xE0, 0x00, 0x00] = some (.ok (.PitchWheelChange 0 0), [])
    ∧ MidiEvent.try_from [0xE0, 0x7F, 0x7F] = some (.ok (.PitchWheelChange 0 0x387), [])
    ∧ (0x387 : Nat) ≠ 0x3FFF :=
  ⟨rfl, rfl, rfl, rfl, by decide⟩

/-- C4: counterexample to the claimed decode formula. For the wire bytes [0xE0, 0x08, 0x01]
the decoder produces the value 128, while the formula of the claim,
(byte1 AND 0x7F) OR ((byte0 AND 0x7F) shl 7), gives 1025. -/
theorem c4_formula_counterexample :
    MidiEvent.try_from [0xE0, 0x08, 0x01] = some (.ok (.PitchWheelChange 0 128), [])
    ∧ (0x01 &&& 0x7F) ||| ((0x08 &&& 0x7F) <<< 7) = 1025
    ∧ (128 : Nat) ≠ 1025 :=
  ⟨rfl, by decide, by decide⟩

/-- C4 (amended): for every status byte with high nibble 0xE followed by two trailing bytes
byte0 then byte1, the decoded PitchWheelChange value equals
((byte1 AND 0x07) shl 7) OR (byte0 AND 0x07): the second trailing byte contributes the high
limb and each byte contributes only its low 3 bits. -/
theorem c4_pitch_decode_amended (s b0 b1 : Nat) (h : s >>> 4 = 0b1110) :
    MidiEvent.try_from [s, b0, b1] =
      some (.ok (.PitchWheelChange (s &&& 0x0F) (((b1 &&& 0x7) <<< 7) ||| (b0 &&& 0x7))),
        []) := by
  simp [MidiEvent.try_from, yieldGet, h]

/-- C4 witness: the amended decode formula evaluated at the stream [0xE3, 5, 6]. -/
theorem c4_pitch_decode_witness :
    MidiEvent.try_from [0xE3, 5, 6] = some (.ok (.PitchWheelChange 3 773), []) := by
  simpa using c4_pitch_decode_amended 0xE3 5 6 rfl

/-- C5: every successfully decoded event carries the low nibble of the status byte as its
channel, hence a channel of at most 15; and the status byte 0b10001111 decodes to NoteOff
with channel 0x0F. -/
theorem c5_channel_low_nibble (s : Nat) (bs : List Nat) (e : MidiEvent) (rem : List Nat)
    (h : MidiEvent.try_from (s :: bs) = some (.ok e, rem)) :
    e.channel = s &&& 0x0F ∧ e.channel ≤ 15
    ∧ MidiEvent.try_from [0b10001111, 0x55, 0x60] =
        some (.ok (.NoteOff 0x0F ⟨0x55, 0x60⟩), []) := by
  have hch : e.channel = s &&& 0x0F := by
    simp only [MidiEvent.try_from] at h
    repeat' split at h
    all_goals first
      | (simp only [Option.some.injEq, Prod.mk.injEq, Except.ok.injEq, reduceCtorEq] at h
         obtain ⟨he, -⟩ := h
         subst he
         rfl)
      | simp_all
  exact ⟨hch, hch ▸ Nat.and_le_right, rfl⟩

/-- C5 witness: the channel law applied to the concrete stream [0x8F, 0x55, 0x60]. -/
theorem c5_channel_witness :
    (MidiEvent.NoteOff 15 ⟨0x55, 0x60⟩).channel = 0x8F &&& 0x0F
    ∧ (MidiEvent.NoteOff 15 ⟨0x55, 0x60⟩).channel ≤ 15
    ∧ MidiEvent.try_from [0b10001111, 0x55, 0x60] =
        some (.ok (.NoteOff 0x0F ⟨0x55, 0x60⟩), []) :=
  c5_channel_low_nibble 0x8F [0x55, 0x60] (.NoteOff 15 ⟨0x55, 0x60⟩) [] rfl

/-- C6: when decoding fails with UnsupportedStatusCode, exactly the status byte has been
consumed: the remaining stream is the input minus its first byte, no payload byte is read,
and the error carries the high nibble of the consumed status byte. -/
theorem c6_error_consumes_one_byte (s : Nat) (rest : List Nat) (c : Nat) (rem : List Nat)
    (h : MidiEvent.try_from (s :: rest) = some (.error c, rem)) :
    rem = rest ∧ c = s >>> 4 := by
  simp only [MidiEvent.try_from] at h
  repeat' split at h
  all_goals simp_all

/-- C6 witness: the consumption law applied to the stream [0x15, 9], whose status byte has
the unrecognized high nibble 1. -/
theorem c6_error_consumes_witness : ([9] : List Nat) = [9] ∧ (1 : Nat) = 0x15 >>> 4 :=
  c6_error_consumes_one_byte 0x15 [9] 1 [9] rfl

/-- C7: a chunk tagged with the header tag fails with InvalidFormat whenever its declared
length is not exactly 6; with length exactly 6, any payload of at least six bytes splits in
order into three big-endian 16-bit fields, format from bytes 0 and 1, ntrk from bytes 2 and
3, division from bytes 4 and 5, each field being high byte shifted left by 8 ored with the
low byte (so the payload [0, 1, 0, 2, 0, 96] gives format 1, ntrk 2, division 96). -/
theorem c7_header_classification (tp : List Nat → Except TrackError TrackChunk)
    (chunk : Chunk) (data : List Nat) (d0 d1 d2 d3 d4 d5 : Nat) (rest : List Nat)
    (h : chunk.chunk_type = HEADER_CHUNK) :
    (chunk.length ≠ 6 → ParsedChunk.try_from tp chunk data = some (.error .InvalidFormat))
    ∧ (chunk.length = 6 →
        ParsedChunk.try_from tp chunk (d0 :: d1 :: d2 :: d3 :: d4 :: d5 :: rest) =
          some (.ok (.Header
            ⟨(d0 <<< 8) ||| d1, (d2 <<< 8) ||| d3, (d4 <<< 8) ||| d5⟩))) := by
  constructor
  · intro h6
    simp [ParsedChunk.try_from, h, h6]
  · intro h6
    simp [ParsedChunk.try_from, h, h6, HeaderChunk.try_from, u16_from_be_bytes,
      Nat.le_add_left]

/-- C7 witness: the header classification applied to a header-tagged chunk of declared
length 6 with payload [0, 1, 0, 2, 0, 96], giving format 1, ntrk 2, division 96. -/
theorem c7_header_witness :
    ParsedChunk.try_from trackParseTrivial ⟨HEADER_CHUNK, 6⟩ [0, 1, 0, 2, 0, 96] =
      some (.ok (.Header ⟨1, 2, 96⟩)) := by
  simpa using
    (c7_header_classification trackParseTrivial ⟨HEADER_CHUNK, 6⟩ [] 0 1 0 2 0 96 []
      rfl).2 rfl

/-- C8: a chunk whose type tag is neither the header tag nor the track data tag is rejected
with UnknownType, for every declared length, payload and track parser. -/
theorem c8_unknown_tag (tp : List Nat → Except TrackError TrackChunk) (chunk : Chunk)
    (data : List Nat) (h1 : chunk.chunk_type ≠ HEADER_CHUNK)
    (h2 : chunk.chunk_type ≠ TRACK_DATA_CHUNK) :
    ParsedChunk.try_from tp chunk data = some (.error .UnknownType) := by
  simp [ParsedChunk.try_from, h1, h2]

/-- C8 witness: the unknown-tag rejection applied to the tag [0, 1, 2, 3]. -/
theorem c8_unknown_tag_witness :
    ParsedChunk.try_from trackParseTrivial ⟨[0, 1, 2, 3], 42⟩ [7, 7] =
      some (.error .UnknownType) :=
  c8_unknown_tag trackParseTrivial ⟨[0, 1, 2, 3], 42⟩ [7, 7] (by decide) (by decide)

/-- C9: for every constructible MidiEvent, channels above 15 included, the first encoded
byte is the status and channel combination and its bit 7 is set. -/
theorem c9_status_high_bit (e : MidiEvent) :
    e.to_midi_bytes.head? = some e.get_status_channel_combo
    ∧ e.get_status_channel_combo.testBit 7 = true := by
  refine ⟨rfl, ?_⟩
  cases e <;> simp [MidiEvent.get_status_channel_combo, Nat.testBit_lor] <;> left <;> decide

/-- C10: with the header tag and a declared length of exactly 6, classification reads the
payload indices 0 through 5 unconditionally: a payload shorter than 6 bytes panics
(modelled as none), while a payload of at least 6 bytes never panics. -/
theorem c10_header_index_guard (tp : List Nat → Except TrackError TrackChunk)
    (chunk : Chunk) (data : List Nat) (h1 : chunk.chunk_type = HEADER_CHUNK)
    (h2 : chunk.length = 6) :
    (data.length < 6 → ParsedChunk.try_from tp chunk data = none)
    ∧ (6 ≤ data.length → ParsedChunk.try_from tp chunk data ≠ none) := by
  constructor
  · intro hlen
    simp [ParsedChunk.try_from, h1, h2, Nat.not_le.mpr hlen]
  · intro hlen
    simp [ParsedChunk.try_from, h1, h2, hlen, HeaderChunk.try_from]

/-- C10 witness: a header-tagged chunk of declared length 6 panics on the 2-byte payload
[1, 2] and classifies the 7-byte payload [0, 0, 0, 0, 0, 0, 7] without panic. -/
theorem c10_header_index_witness :
    ParsedChunk.try_from trackParseTrivial ⟨HEADER_CHUNK, 6⟩ [1, 2] = none
    ∧ ParsedChunk.try_from trackParseTrivial ⟨HEADER_CHUNK, 6⟩ [0, 0, 0, 0, 0, 0, 7] ≠
        none :=
  ⟨(c10_header_index_guard trackParseTrivial ⟨HEADER_CHUNK, 6⟩ [1, 2] rfl rfl).1
      (by decide),
    (c10_header_index_guard trackParseTrivial ⟨HEADER_CHUNK, 6⟩ [0, 0, 0, 0, 0, 0, 7] rfl
      rfl).2 (by decide)⟩

end Miami
